import Mathlib

/-!
Shallow embedding of `dput/uploader.py` (dput-ng upload orchestration core).

The module under verification orchestrates one upload: it computes the audit
marker path (`determine_logfile`), runs configured checkers, opens the marker
file, and drives a context-managed backend (`uploader`) through its lifecycle
(construct, initialize, pre-hook, per-file transfer, post-hook, shutdown).

Side effects are modelled as a trace of `Event`s; exceptions as
`Except DputErr`.  External collaborators (the backend registry `get_obj`,
`run_command`, `run_checker`, `load_profile`, the filesystem) are parameters
of an `Env` record, so theorems quantify over their behaviour.  Python
`dict` access on the profile is modelled by `Option` fields: `none` means
the key is absent, and direct indexing of an absent key raises `KeyError`.
-/

/-- Observable effects of one `invoke_dput` run.  `backendInit`, `sendFile`
and `shutdown` are the calls on the backend object (`initialize`,
`upload_file`, `shutdown` in the source); `preHook` / `postHook` are the
`_pre_hook` / `_post_hook` method invocations; `runCommand` is the
subprocess spawned by `_run_hook`; `access`, `openTrunc` and `write` are
the filesystem operations `os.access(logfile, R_OK)`, `open(logfile, 'w')`
and `log.write(line)`. -/
inductive Event where
  | backendInit : Event
  | preHook : Event
  | sendFile : String → Event
  | postHook : Event
  | shutdown : Event
  | runCommand : String → Event
  | runChecker : String → Event
  | access : String → Event
  | openTrunc : String → Event
  | write : String → Event
  | makeDelayedUpload : Event
  | forcePassiveFtp : Event
deriving DecidableEq, Repr

/-- Exceptions raised by the code: `DputConfigurationError`, `DputError`
(hook failure), `UploadException`, a checker rejection (raised by the
external `run_checker`), Python `KeyError` on a missing dict key, and the
backend-raised transfer / connection failures. -/
inductive DputErr where
  | configurationError : String → DputErr
  | dputError : String → DputErr
  | uploadException : String → DputErr
  | checkerReject : String → DputErr
  | keyError : String → DputErr
  | transferError : String → DputErr
  | connectionError : String → DputErr
deriving DecidableEq, Repr

/-- A destination profile: the `dict` produced by `dput.profile.load_profile`.
Each field is `some v` when the key is present with value `v`, `none` when
absent.  Only the keys read by `uploader.py` are modelled. -/
structure Profile where
  method : Option String := none
  name : Option String := none
  fqdn : Option String := none
  incoming : Option String := none
  interface : Option String := none
  pre_upload_command : Option String := none
  post_upload_command : Option String := none
  checkers : Option (List String) := none
deriving DecidableEq, Repr

/-- Command-line arguments consumed by `invoke_dput` / `determine_logfile`. -/
structure Args where
  host : String := ""
  simulate : Bool := false
  force : Bool := false
  delayed : Option Nat := none
  passive : Bool := false
deriving DecidableEq, Repr

/-- The artifact set (`dput.changes` object) through the accessors the code
calls: `get_changes_file`, `get_filename`, `get_package_name`, `get_files`. -/
structure Changes where
  changesFile : String
  filename : String
  packageName : String
  files : List String
deriving DecidableEq, Repr

/-- Behaviour of the external collaborators: `load_profile`, the two
`get_obj` registries, `run_command` (exit code and captured stderr of a
command line), the backend stub (does `initialize` succeed, does
`upload_file` succeed on a given path), `os.access` on a marker path, and
whether a named checker accepts the artifact set. -/
structure Env where
  loadProfile : String → Profile
  uploaders : String → Bool
  interfaces : String → Bool
  cmdRet : String → Int
  cmdStderr : String → String
  backendInitOk : Bool
  sendOk : String → Bool
  markerExists : String → Bool
  checkerOk : String → Bool

deriving instance DecidableEq for Except

/-- A step of the embedded program: the events it emits and its outcome. -/
abbrev Step (α : Type) := List Event × Except DputErr α

/-- Sequencing with exception propagation: run `x`; if it raises, stop with
its trace; otherwise run the continuation and concatenate traces.  This is
ordinary Python statement sequencing. -/
def seqE {α β : Type} (x : Step α) (f : α → Step β) : Step β :=
  match x with
  | (t, Except.error e) => (t, Except.error e)
  | (t, Except.ok a) =>
    match f a with
    | (t2, r) => (t ++ t2, r)

/-- Python dict indexing `d[key]`: raises `KeyError(key)` when absent. -/
def pyGet {α : Type} (v : Option α) (key : String) : Except DputErr α :=
  match v with
  | some x => Except.ok x
  | none => Except.error (DputErr.keyError key)

/-- Truthiness of the local `fqdn` variable of `invoke_dput` (`None` when the
key is absent, the stored string otherwise; a Python string is truthy iff
non-empty). -/
def pyTruthyOpt (o : Option String) : Bool :=
  match o with
  | some s => s != ""
  | none => false

/-- Message of the `DputError` raised by `_run_hook` on a non-zero exit. -/
def hookErrMsg (env : Env) (cmd : String) : String :=
  "Command `" ++ cmd ++ "' returned an error: " ++ env.cmdStderr cmd ++
    " [err=" ++ toString (env.cmdRet cmd) ++ "]"

/-- `AbstractUploader._run_hook`: skipped when the key is absent or the
configured command string is empty; otherwise the command is run and a
non-zero exit code raises `DputError`. -/
def run_hook (env : Env) (cfg : Option String) : Step Unit :=
  match cfg with
  | none => ([], Except.ok ())
  | some cmd =>
    if cmd = "" then ([], Except.ok ())
    else
      ([Event.runCommand cmd],
        if env.cmdRet cmd = 0 then Except.ok ()
        else Except.error (DputErr.dputError (hookErrMsg env cmd)))

/-- `AbstractUploader._pre_hook`: the method call is recorded, then
`_run_hook("pre_upload_command")` runs. -/
def pre_hook (env : Env) (prof : Profile) : Step Unit :=
  seqE ([Event.preHook], Except.ok ()) fun _ =>
    run_hook env prof.pre_upload_command

/-- `AbstractUploader._post_hook`. -/
def post_hook (env : Env) (prof : Profile) : Step Unit :=
  seqE ([Event.postHook], Except.ok ()) fun _ =>
    run_hook env prof.post_upload_command

/-- `AbstractUploader.__init__`: resolve the interactive interface
(defaulting to `cli`); an unresolvable name raises
`DputConfigurationError`. -/
def uploader_ctor (env : Env) (prof : Profile) : Step Unit :=
  let iface := prof.interface.getD "cli"
  if env.interfaces iface then ([], Except.ok ())
  else
    ([], Except.error (DputErr.configurationError
      ("No such interface: `" ++ iface ++ "'")))

/-- The backend stub's `initialize` (Transport contract of the spec:
may fail with a connection error, controlled by `Env.backendInitOk`). -/
def backend_init (env : Env) : Step Unit :=
  ([Event.backendInit],
    if env.backendInitOk then Except.ok ()
    else Except.error (DputErr.connectionError "initialize failed"))

/-- The backend stub's `upload_file` (Transport contract: may fail with a
transfer error, controlled by `Env.sendOk`). -/
def upload_file (env : Env) (path : String) : Step Unit :=
  ([Event.sendFile path],
    if env.sendOk path then Except.ok ()
    else Except.error (DputErr.transferError path))

/-- The backend stub's `shutdown` (Transport contract: must not raise). -/
def backend_shutdown : Step Unit :=
  ([Event.shutdown], Except.ok ())

/-- Setup half of the `uploader` context manager (everything before
`yield`): resolve the method in the `uploaders` registry — failure raises
`DputConfigurationError` — then `klass(profile)`, `obj.initialize()`,
`obj._pre_hook()`. -/
def uploader_setup (env : Env) (prof : Profile) (method : String) : Step Unit :=
  if env.uploaders method then
    seqE (uploader_ctor env prof) fun _ =>
    seqE (backend_init env) fun _ =>
    pre_hook env prof
  else
    ([], Except.error (DputErr.configurationError
      ("Failed to resolve method " ++ method ++ " to an uploader class")))

/-- The `finally` block of the `uploader` context manager:
`obj._post_hook(); obj.shutdown()` — if the post-hook raises, `shutdown`
is never reached (there is no inner `try`). -/
def uploader_finally (env : Env) (prof : Profile) : Step Unit :=
  seqE (post_hook env prof) fun _ => backend_shutdown

/-- Semantics of `with uploader(method, profile) as obj: body` with the
generator-based context manager of the source.  If setup raises, the body
and the `finally` block never run.  Otherwise the body runs and the
`finally` block runs on every exit; per Python semantics an exception
raised inside `finally` replaces the body's outcome (a pending body
exception is suppressed). -/
def with_uploader {α : Type} (env : Env) (prof : Profile) (method : String)
    (body : Step α) : Step α :=
  match uploader_setup env prof method with
  | (t, Except.error e) => (t, Except.error e)
  | (t, Except.ok _) =>
    match uploader_finally env prof with
    | (tf, Except.error ef) => (t ++ body.1 ++ tf, Except.error ef)
    | (tf, Except.ok _) => (t ++ body.1 ++ tf, body.2)

/-- Python `str.endswith`, computed structurally on the character lists so
that concrete instances evaluate in the kernel. -/
def endswith (s suffix : String) : Bool :=
  List.isSuffixOf suffix.data s.data

/-- Python slicing `s[:-n]` (drop the last `n` characters), computed
structurally on the character list. -/
def dropright (s : String) (n : Nat) : String :=
  String.mk (s.data.take (s.data.length - n))

/-- `os.path.basename`: the part of the path after the last slash. -/
def basename (p : String) : String :=
  String.mk ((p.data.reverse.takeWhile (fun c => c ≠ '/')).reverse)

/-- The audit line appended to the marker for one file (source line 227):
the middle field is `profile['fqdn'] or profile['name']`. -/
def marker_line (file hostOrName name : String) : String :=
  "Successfully uploaded " ++ file ++ " to " ++ hostOrName ++ " for " ++
    name ++ ".\n"

/-- One iteration of the transfer loop (source lines 220-233): unless
simulating, `obj.upload_file(path)`; then write the marker line, which
indexes `profile['fqdn']` directly (a `KeyError` when the key is absent)
and `profile['name']`. -/
def transfer_one (env : Env) (prof : Profile) (args : Args) (path : String) :
    Step Unit :=
  seqE (if args.simulate then ([], Except.ok ()) else upload_file env path)
    fun _ =>
      match pyGet prof.fqdn "fqdn" with
      | Except.error e => ([], Except.error e)
      | Except.ok fq =>
        match pyGet prof.name "name" with
        | Except.error e => ([], Except.error e)
        | Except.ok nm =>
          ([Event.write (marker_line (basename path)
              (if fq = "" then nm else fq) nm)], Except.ok ())

/-- The transfer loop over `changes.get_files() + [changes.get_changes_file()]`. -/
def transfer_loop (env : Env) (prof : Profile) (args : Args) :
    List String → Step Unit
  | [] => ([], Except.ok ())
  | p :: ps =>
    seqE (transfer_one env prof args p) fun _ =>
      transfer_loop env prof args ps

/-- Modelled from the spec: `run_checker` (in `dput.checker`, not under
`src/`) runs the named validator and raises a rejection on failure
(spec 4.4: first rejection aborts).  Acceptance is `Env.checkerOk`. -/
def run_checker (env : Env) (name : String) : Step Unit :=
  ([Event.runChecker name],
    if env.checkerOk name then Except.ok ()
    else Except.error (DputErr.checkerReject name))

/-- The checker loop of `invoke_dput` (source lines 199-206): run each
configured checker in order; a raise aborts the rest. -/
def run_checkers (env : Env) : List String → Step Unit
  | [] => ([], Except.ok ())
  | c :: cs =>
    seqE (run_checker env c) fun _ => run_checkers env cs

/-- `determine_logfile(changes, conf, args)` (source lines 154-174):
replace a trailing `.changes` by `.<conf['name']>.upload`; without the
suffix raise `UploadException` (before any filesystem access); then
`os.access(logfile, R_OK)` — an existing marker without `--force` raises
`UploadException` naming the package, destination and marker path. -/
def determine_logfile (env : Env) (changes : Changes) (conf : Profile)
    (args : Args) : Step String :=
  let logfile := changes.changesFile
  if endswith logfile ".changes" then
    match pyGet conf.name "name" with
    | Except.error e => ([], Except.error e)
    | Except.ok nm =>
      let logfile := dropright logfile ".changes".length ++ "." ++ nm ++ ".upload"
      seqE ([Event.access logfile], Except.ok ()) fun _ =>
        if env.markerExists logfile ∧ args.force = false then
          ([], Except.error (DputErr.uploadException
            ("Package " ++ changes.packageName ++ " was already uploaded to " ++
              nm ++ "\nIf you want to upload nonetheless, use --force or remove " ++
              logfile)))
        else ([], Except.ok logfile)
  else
    ([], Except.error (DputErr.uploadException
      ("File " ++ changes.filename ++ " does not look like a .changes file")))

/-- Truthiness of `args.delayed` (absent or the zero-day queue are falsy). -/
def delayedTruthy (args : Args) : Bool :=
  match args.delayed with
  | some d => d != 0
  | none => false

/-- The lookups performed by the `logger.info` call at source lines 208-212:
the format tuple evaluates `fqdn or profile['name']` and then
`profile['incoming']`, either of which can raise `KeyError`. -/
def info_lookups (prof : Profile) : Step Unit :=
  match (if pyTruthyOpt prof.fqdn then Except.ok () else
    match pyGet prof.name "name" with
    | Except.error e => Except.error e
    | Except.ok _ => Except.ok ()) with
  | Except.error e => ([], Except.error e)
  | Except.ok _ =>
    match pyGet prof.incoming "incoming" with
    | Except.error e => ([], Except.error e)
    | Except.ok _ => ([], Except.ok ())

/-- The `with uploader(profile['method'], profile)` statement of
`invoke_dput` (source line 219): the `profile['method']` dict lookup (a
`KeyError` when absent) followed by the `uploader` scope around the
transfer loop. -/
def method_scope (env : Env) (prof : Profile) (args : Args)
    (paths : List String) : Step Unit :=
  match pyGet prof.method "method" with
  | Except.error e => ([], Except.error e)
  | Except.ok m => with_uploader env prof m (transfer_loop env prof args paths)

/-- `invoke_dput(changes, args)` (source lines 177-233): load the profile,
compute the marker path, apply the delayed/passive overrides, run the
checkers, perform the info-log lookups, open the marker file for writing
(creating or truncating it), resolve `profile['method']` and enter the
`uploader` scope around the transfer loop. -/
def invoke_dput (env : Env) (changes : Changes) (args : Args) : Step Unit :=
  let profile := env.loadProfile args.host
  seqE (determine_logfile env changes profile args) fun logfile =>
  seqE (if delayedTruthy args then ([Event.makeDelayedUpload], Except.ok ())
        else ([], Except.ok ())) fun _ =>
  seqE (if args.passive then ([Event.forcePassiveFtp], Except.ok ())
        else ([], Except.ok ())) fun _ =>
  seqE (match profile.checkers with
        | some cs => run_checkers env cs
        | none => ([], Except.ok ())) fun _ =>
  seqE (info_lookups profile) fun _ =>
  seqE ([Event.openTrunc logfile], Except.ok ()) fun _ =>
  method_scope env profile args (changes.files ++ [changes.changesFile])

/-- The part of `invoke_dput` inside the `with uploader(...)` statement:
the lifecycle scope wrapped around the transfer loop over `paths`. -/
def upload_scope (env : Env) (prof : Profile) (args : Args) (m : String)
    (paths : List String) : Step Unit :=
  with_uploader env prof m (transfer_loop env prof args paths)

/-- The marker path `determine_logfile` computes for a destination named
`nm`: the descriptor filename with its last 8 characters (the `.changes`
suffix) replaced by `.<nm>.upload`. -/
def logfile_for (changes : Changes) (nm : String) : String :=
  dropright changes.changesFile ".changes".length ++ "." ++ nm ++ ".upload"

/-- Events observable on the backend stub: lifecycle and hook method calls
(the call order a recording stub would see). -/
def isBackendEvent : Event → Bool
  | Event.backendInit => true
  | Event.preHook => true
  | Event.sendFile _ => true
  | Event.postHook => true
  | Event.shutdown => true
  | _ => false

/-- Projection of a trace to the backend-observable call order. -/
def obs (t : List Event) : List Event :=
  t.filter isBackendEvent

/-- The lines written to the marker file during a trace, in order. -/
def writtenLines (t : List Event) : List String :=
  t.filterMap fun e =>
    match e with
    | Event.write l => some l
    | _ => none

/-- The checkers invoked during a trace, in order. -/
def checkerCalls (t : List Event) : List String :=
  t.filterMap fun e =>
    match e with
    | Event.runChecker c => some c
    | _ => none

/-- Trace of the subprocess spawned by `_run_hook` for a configured hook:
empty when the key is absent or the command string is empty. -/
def hookEvents (cfg : Option String) : List Event :=
  match cfg with
  | none => []
  | some cmd => if cmd = "" then [] else [Event.runCommand cmd]

/-- A hook step succeeds: no command configured, an empty command (skipped),
or the command exits 0. -/
def hookOk (env : Env) (cfg : Option String) : Bool :=
  match cfg with
  | none => true
  | some cmd => cmd == "" || env.cmdRet cmd == 0

/-- Fixture profile used by concrete witnesses: a complete destination
profile (method `ftp`, name `myhost`, fqdn `host.example`). -/
def profFix : Profile :=
  { method := some "ftp", name := some "myhost", fqdn := some "host.example",
    incoming := some "/in" }

/-- Fixture environment: only the `ftp` uploader and the `cli` interface
are registered, all commands exit 0, the backend always succeeds, no
marker exists, all checkers accept. -/
def envFix : Env :=
  { loadProfile := fun _ => profFix,
    uploaders := fun s => s == "ftp",
    interfaces := fun s => s == "cli",
    cmdRet := fun _ => 0,
    cmdStderr := fun _ => "",
    backendInitOk := true,
    sendOk := fun _ => true,
    markerExists := fun _ => false,
    checkerOk := fun _ => true }

/-- Fixture artifact set: one file plus the `.changes` descriptor. -/
def chFix : Changes :=
  { changesFile := "foo_1.0_amd64.changes", filename := "foo_1.0_amd64.changes",
    packageName := "foo", files := ["a.deb"] }

/-- The overrides-related events of one run: `make_delayed_upload` when
`args.delayed` is truthy, `force_passive_ftp_upload` when `args.passive`. -/
def optEvents (args : Args) : List Event :=
  (if delayedTruthy args then [Event.makeDelayedUpload] else []) ++
    (if args.passive then [Event.forcePassiveFtp] else [])

/-- Fixture profile with a configured pre-hook command. -/
def profPre : Profile :=
  { profFix with pre_upload_command := some "precmd" }

/-- Fixture profile with a configured post-hook command. -/
def profPost : Profile :=
  { profFix with post_upload_command := some "postcmd" }

/-- Fixture profile whose `fqdn` key is absent. -/
def profNoFqdn : Profile :=
  { method := some "ftp", name := some "myhost", incoming := some "/in" }

/-- Fixture environment in which every hook command exits 1 with stderr
`boom`. -/
def envHookFail : Env :=
  { envFix with cmdRet := fun _ => 1, cmdStderr := fun _ => "boom" }

/-- Fixture profile with one configured checker. -/
def profCks : Profile :=
  { profFix with checkers := some ["lintian"] }

/-- Fixture environment whose loaded profile configures one checker. -/
def envCks : Env :=
  { envFix with loadProfile := fun _ => profCks }

/-- Fixture profile with three configured checkers. -/
def profCks3 : Profile :=
  { profFix with checkers := some ["c1", "c2", "c3"] }

/-- Fixture environment whose loaded profile configures three checkers, of
which only the first accepts. -/
def envCks3 : Env :=
  { envFix with loadProfile := (fun _ => profCks3), checkerOk := (fun c => c == "c1") }

theorem obs_append (a b : List Event) : obs (a ++ b) = obs a ++ obs b :=
  List.filter_append _ _

theorem writtenLines_append (a b : List Event) :
    writtenLines (a ++ b) = writtenLines a ++ writtenLines b :=
  List.filterMap_append _ _ _

theorem checkerCalls_append (a b : List Event) :
    checkerCalls (a ++ b) = checkerCalls a ++ checkerCalls b :=
  List.filterMap_append _ _ _

theorem obs_hookEvents (cfg : Option String) : obs (hookEvents cfg) = [] := by
  cases cfg with
  | none => rfl
  | some cmd =>
    by_cases h : cmd = "" <;> simp [hookEvents, h, obs, isBackendEvent]

theorem writtenLines_hookEvents (cfg : Option String) :
    writtenLines (hookEvents cfg) = [] := by
  cases cfg with
  | none => rfl
  | some cmd =>
    by_cases h : cmd = "" <;> simp [hookEvents, h, writtenLines]

theorem run_hook_ok (env : Env) (cfg : Option String)
    (h : hookOk env cfg = true) :
    run_hook env cfg = (hookEvents cfg, Except.ok ()) := by
  cases cfg with
  | none => rfl
  | some cmd =>
    simp only [hookOk, Bool.or_eq_true, beq_iff_eq] at h
    by_cases hc : cmd = ""
    · simp [run_hook, hookEvents, hc]
    · have hr : env.cmdRet cmd = 0 := h.resolve_left hc
      simp [run_hook, hookEvents, hc, hr]

theorem run_hook_fail (env : Env) (cmd : String)
    (hc : cmd ≠ "") (hr : env.cmdRet cmd ≠ 0) :
    run_hook env (some cmd) =
      ([Event.runCommand cmd],
        Except.error (DputErr.dputError (hookErrMsg env cmd))) := by
  simp [run_hook, hc, hr]

theorem uploader_setup_ok (env : Env) (prof : Profile) (m : String)
    (hm : env.uploaders m = true)
    (hi : env.interfaces (prof.interface.getD "cli") = true)
    (hb : env.backendInitOk = true)
    (hpre : hookOk env prof.pre_upload_command = true) :
    uploader_setup env prof m =
      (Event.backendInit :: Event.preHook :: hookEvents prof.pre_upload_command,
        Except.ok ()) := by
  simp [uploader_setup, hm, uploader_ctor, hi, seqE, backend_init, hb,
    pre_hook, run_hook_ok env _ hpre]

theorem uploader_finally_ok (env : Env) (prof : Profile)
    (hpost : hookOk env prof.post_upload_command = true) :
    uploader_finally env prof =
      (Event.postHook :: hookEvents prof.post_upload_command ++ [Event.shutdown],
        Except.ok ()) := by
  simp [uploader_finally, post_hook, seqE, run_hook_ok env _ hpost,
    backend_shutdown]

theorem with_uploader_ok {α : Type} (env : Env) (prof : Profile) (m : String)
    (body : Step α)
    (hm : env.uploaders m = true)
    (hi : env.interfaces (prof.interface.getD "cli") = true)
    (hb : env.backendInitOk = true)
    (hpre : hookOk env prof.pre_upload_command = true)
    (hpost : hookOk env prof.post_upload_command = true) :
    with_uploader env prof m body =
      ((Event.backendInit :: Event.preHook :: hookEvents prof.pre_upload_command)
        ++ body.1
        ++ (Event.postHook :: hookEvents prof.post_upload_command ++ [Event.shutdown]),
        body.2) := by
  rw [with_uploader, uploader_setup_ok env prof m hm hi hb hpre,
    uploader_finally_ok env prof hpost]

theorem endswith_decomp (s suf : String) (h : endswith s suf = true) :
    s = dropright s suf.length ++ suf := by
  unfold endswith at h
  rw [List.isSuffixOf_iff_suffix] at h
  obtain ⟨t, ht⟩ := h
  apply String.ext
  rw [String.data_append]
  show s.data = s.data.take (s.data.length - suf.data.length) ++ suf.data
  conv_lhs => rw [← ht]
  rw [← ht, List.length_append, Nat.add_sub_cancel, List.take_left]

/-- C7: for every artifact set whose descriptor filename ends in `.changes`
and every destination name, the computed marker path is the descriptor
filename with the `.changes` suffix replaced by `.<name>.upload` (and the
computation succeeds when no marker blocks it). -/
theorem c7_marker_path (env : Env) (changes : Changes) (conf : Profile)
    (args : Args) (nm : String)
    (hsuf : endswith changes.changesFile ".changes" = true)
    (hname : conf.name = some nm)
    (hmark : env.markerExists (logfile_for changes nm) = false ∨ args.force = true) :
    changes.changesFile = dropright changes.changesFile ".changes".length ++ ".changes"
    ∧ determine_logfile env changes conf args =
        ([Event.access (logfile_for changes nm)],
          Except.ok (logfile_for changes nm)) := by
  refine ⟨endswith_decomp _ _ hsuf, ?_⟩
  simp only [logfile_for] at hmark
  unfold determine_logfile
  rcases hmark with h | h <;>
    simp [hsuf, hname, pyGet, seqE, logfile_for, h]

/-- Witness for C7 at the spec's example: descriptor
`foo_1.0_amd64.changes`, destination `myhost`, marker path exactly
`foo_1.0_amd64.myhost.upload`. -/
theorem c7_witness :
    (endswith chFix.changesFile ".changes" = true
      ∧ profFix.name = some "myhost"
      ∧ envFix.markerExists (logfile_for chFix "myhost") = false)
    ∧ logfile_for chFix "myhost" = "foo_1.0_amd64.myhost.upload"
    ∧ (chFix.changesFile = dropright chFix.changesFile ".changes".length ++ ".changes"
        ∧ determine_logfile envFix chFix profFix {} =
            ([Event.access (logfile_for chFix "myhost")],
              Except.ok (logfile_for chFix "myhost"))) :=
  ⟨⟨by decide, by decide, by decide⟩, by decide,
    c7_marker_path envFix chFix profFix {} "myhost" (by decide) (by decide)
      (Or.inl (by decide))⟩

/-- C8: when the descriptor filename does not end in `.changes`, marker
computation raises `UploadException` with an empty trace — no filesystem
access of any kind happens. -/
theorem c8_input_shape (env : Env) (changes : Changes) (conf : Profile)
    (args : Args)
    (hsuf : endswith changes.changesFile ".changes" = false) :
    determine_logfile env changes conf args =
      ([], Except.error (DputErr.uploadException
        ("File " ++ changes.filename ++ " does not look like a .changes file"))) := by
  unfold determine_logfile
  simp [hsuf]

/-- Witness for C8 at the spec's example descriptor `foo_1.0.tar.gz`. -/
theorem c8_witness :
    endswith "foo_1.0.tar.gz" ".changes" = false
    ∧ determine_logfile envFix
        { changesFile := "foo_1.0.tar.gz", filename := "foo_1.0.tar.gz",
          packageName := "foo", files := [] } profFix {} =
      ([], Except.error (DputErr.uploadException
        "File foo_1.0.tar.gz does not look like a .changes file")) :=
  ⟨by decide,
    c8_input_shape envFix
      { changesFile := "foo_1.0.tar.gz", filename := "foo_1.0.tar.gz",
        packageName := "foo", files := [] } profFix {} (by decide)⟩

/-- C9: when the marker for (artifact set, destination) exists and no
override (`--force`) is requested, `invoke_dput` raises `UploadException`
naming the package, the destination and the marker path, and the whole
trace is the single read-only `os.access` check — the marker is not
written, opened or truncated. -/
theorem c9_already_uploaded (env : Env) (changes : Changes) (args : Args)
    (nm : String)
    (hsuf : endswith changes.changesFile ".changes" = true)
    (hname : (env.loadProfile args.host).name = some nm)
    (hmark : env.markerExists (logfile_for changes nm) = true)
    (hforce : args.force = false) :
    invoke_dput env changes args =
      ([Event.access (logfile_for changes nm)],
        Except.error (DputErr.uploadException
          ("Package " ++ changes.packageName ++ " was already uploaded to " ++
            nm ++ "\nIf you want to upload nonetheless, use --force or remove " ++
            logfile_for changes nm))) := by
  simp only [logfile_for] at hmark
  unfold invoke_dput determine_logfile
  simp [hsuf, hname, pyGet, seqE, hmark, hforce, logfile_for]

/-- Witness for C9: marker present, no force; the run fails with the
already-uploaded message and only reads the marker. -/
theorem c9_witness :
    (endswith chFix.changesFile ".changes" = true
      ∧ ({ envFix with markerExists := fun _ => true }.loadProfile
          ({} : Args).host).name = some "myhost"
      ∧ { envFix with markerExists := fun _ => true }.markerExists
          (logfile_for chFix "myhost") = true
      ∧ ({} : Args).force = false)
    ∧ invoke_dput { envFix with markerExists := fun _ => true } chFix {} =
        ([Event.access (logfile_for chFix "myhost")],
          Except.error (DputErr.uploadException
            ("Package " ++ chFix.packageName ++ " was already uploaded to " ++
              "myhost" ++ "\nIf you want to upload nonetheless, use --force or remove " ++
              logfile_for chFix "myhost"))) :=
  ⟨⟨by decide, by decide, by decide, by decide⟩,
    c9_already_uploaded { envFix with markerExists := fun _ => true } chFix {}
      "myhost" (by decide) (by decide) (by decide) (by decide)⟩

theorem obs_nil : obs [] = [] := rfl

theorem obs_cons_true (e : Event) (t : List Event) (h : isBackendEvent e = true) :
    obs (e :: t) = e :: obs t := by
  simp [obs, List.filter_cons, h]

theorem obs_cons_false (e : Event) (t : List Event) (h : isBackendEvent e = false) :
    obs (e :: t) = obs t := by
  simp [obs, List.filter_cons, h]

theorem shutdown_not_mem_hookEvents (cfg : Option String) :
    Event.shutdown ∉ hookEvents cfg := by
  cases cfg with
  | none => simp [hookEvents]
  | some cmd => by_cases h : cmd = "" <;> simp [hookEvents, h]

theorem transfer_one_obs (env : Env) (prof : Profile) (args : Args) (p : String) :
    obs (transfer_one env prof args p).1 = [] ∨
      obs (transfer_one env prof args p).1 = [Event.sendFile p] := by
  unfold transfer_one upload_file seqE
  cases hsim : args.simulate <;> cases hf : prof.fqdn <;>
    cases hn : prof.name <;> cases hs : env.sendOk p <;>
      simp [pyGet, hs, obs, List.filter, isBackendEvent]

theorem transfer_loop_obs (env : Env) (prof : Profile) (args : Args) :
    ∀ ps : List String, ∃ sent : List String,
      obs (transfer_loop env prof args ps).1 = sent.map Event.sendFile := by
  intro ps
  induction ps with
  | nil => exact ⟨[], rfl⟩
  | cons p ps ih =>
    obtain ⟨sent, hsent⟩ := ih
    have h1 := transfer_one_obs env prof args p
    rcases hstep : transfer_one env prof args p with ⟨t, r⟩
    rw [hstep] at h1
    simp only at h1
    cases r with
    | error e =>
      rcases h1 with h1 | h1
      · refine ⟨[], ?_⟩
        simp only [transfer_loop, seqE, hstep]
        simpa using h1
      · refine ⟨[p], ?_⟩
        simp only [transfer_loop, seqE, hstep]
        simpa using h1
    | ok a =>
      rcases h1 with h1 | h1
      · refine ⟨sent, ?_⟩
        simp only [transfer_loop, seqE, hstep]
        rw [obs_append, h1, hsent]
        simp
      · refine ⟨p :: sent, ?_⟩
        simp only [transfer_loop, seqE, hstep]
        rw [obs_append, h1, hsent]
        simp

theorem transfer_loop_no_shutdown (env : Env) (prof : Profile) (args : Args)
    (paths : List String) :
    Event.shutdown ∉ (transfer_loop env prof args paths).1 := by
  obtain ⟨sent, hsent⟩ := transfer_loop_obs env prof args paths
  intro hmem
  have hobs : Event.shutdown ∈ obs (transfer_loop env prof args paths).1 :=
    List.mem_filter.mpr ⟨hmem, rfl⟩
  rw [hsent] at hobs
  simp at hobs

theorem upload_scope_obs_ok (env : Env) (prof : Profile) (args : Args)
    (m : String) (paths : List String)
    (hm : env.uploaders m = true)
    (hi : env.interfaces (prof.interface.getD "cli") = true)
    (hb : env.backendInitOk = true)
    (hpre : hookOk env prof.pre_upload_command = true)
    (hpost : hookOk env prof.post_upload_command = true) :
    (upload_scope env prof args m paths).2 = (transfer_loop env prof args paths).2
    ∧ ∃ sent : List String,
        obs (upload_scope env prof args m paths).1 =
          Event.backendInit :: Event.preHook ::
            (sent.map Event.sendFile ++ [Event.postHook, Event.shutdown]) := by
  obtain ⟨sent, hsent⟩ := transfer_loop_obs env prof args paths
  unfold upload_scope
  rw [with_uploader_ok env prof m _ hm hi hb hpre hpost]
  refine ⟨rfl, ⟨sent, ?_⟩⟩
  rw [obs_append, obs_append, obs_append,
    obs_cons_true Event.backendInit _ rfl, obs_cons_true Event.preHook _ rfl,
    obs_hookEvents, obs_cons_true Event.postHook _ rfl, obs_hookEvents, hsent]
  simp [obs, isBackendEvent]

/-- C1: for every upload that reaches the transfer loop (registry, interface,
initialize and pre-hook all succeed) and whose post-hook step succeeds, the
backend stub observes exactly the call order initialize, pre-hook, zero or
more sendFile calls, post-hook, shutdown — post-hook and shutdown once each,
in that order, after all sendFile calls, on normal completion as well as on
a transfer error raised mid-loop (the send behaviour is arbitrary). -/
theorem c1_call_order (env : Env) (prof : Profile) (args : Args) (m : String)
    (paths : List String)
    (hm : env.uploaders m = true)
    (hi : env.interfaces (prof.interface.getD "cli") = true)
    (hb : env.backendInitOk = true)
    (hpre : hookOk env prof.pre_upload_command = true)
    (hpost : hookOk env prof.post_upload_command = true) :
    ∃ sent : List String,
      obs (upload_scope env prof args m paths).1 =
        Event.backendInit :: Event.preHook ::
          (sent.map Event.sendFile ++ [Event.postHook, Event.shutdown]) :=
  (upload_scope_obs_ok env prof args m paths hm hi hb hpre hpost).2

/-- Witness for C1 at a concrete run: fixture environment, one file to
send, no hooks configured. -/
theorem c1_witness :
    (envFix.uploaders "ftp" = true
      ∧ envFix.interfaces (profFix.interface.getD "cli") = true
      ∧ envFix.backendInitOk = true
      ∧ hookOk envFix profFix.pre_upload_command = true
      ∧ hookOk envFix profFix.post_upload_command = true)
    ∧ ∃ sent : List String,
        obs (upload_scope envFix profFix {} "ftp" ["a.deb"]).1 =
          Event.backendInit :: Event.preHook ::
            (sent.map Event.sendFile ++ [Event.postHook, Event.shutdown]) :=
  ⟨⟨by decide, by decide, by decide, by decide, by decide⟩,
    c1_call_order envFix profFix {} "ftp" ["a.deb"] (by decide) (by decide)
      (by decide) (by decide) (by decide)⟩

theorem uploader_setup_prefail (env : Env) (prof : Profile) (m : String)
    (hm : env.uploaders m = true)
    (hi : env.interfaces (prof.interface.getD "cli") = true)
    (hb : env.backendInitOk = true)
    (cmd : String) (hc : prof.pre_upload_command = some cmd)
    (hne : cmd ≠ "") (hr : env.cmdRet cmd ≠ 0) :
    uploader_setup env prof m =
      ([Event.backendInit, Event.preHook, Event.runCommand cmd],
        Except.error (DputErr.dputError (hookErrMsg env cmd))) := by
  simp [uploader_setup, hm, uploader_ctor, hi, seqE, backend_init, hb,
    pre_hook, hc, run_hook_fail env cmd hne hr]

theorem uploader_finally_postfail (env : Env) (prof : Profile)
    (cmd : String) (hc : prof.post_upload_command = some cmd)
    (hne : cmd ≠ "") (hr : env.cmdRet cmd ≠ 0) :
    uploader_finally env prof =
      ([Event.postHook, Event.runCommand cmd],
        Except.error (DputErr.dputError (hookErrMsg env cmd))) := by
  simp [uploader_finally, post_hook, seqE, hc, run_hook_fail env cmd hne hr]

/-- C4 (amended): teardown under hook failures, as the code behaves.
If the pre-hook fails after successful initialization, the scope raises the
pre-hook error without running the post-hook or shutdown (the `finally`
block is never entered).  When both hooks succeed, post-hook then shutdown
run exactly once each after all sendFile calls and the transfer loop's
outcome (including a transfer error) is surfaced unchanged.  If the
post-hook fails, the post-hook is invoked but shutdown is not, and the
post-hook error replaces (suppresses) any prior transfer error. -/
theorem c4_teardown (env : Env) (prof : Profile) (args : Args) (m : String)
    (paths : List String)
    (hm : env.uploaders m = true)
    (hi : env.interfaces (prof.interface.getD "cli") = true)
    (hb : env.backendInitOk = true) :
    (∀ cmd, prof.pre_upload_command = some cmd → cmd ≠ "" → env.cmdRet cmd ≠ 0 →
        upload_scope env prof args m paths =
          ([Event.backendInit, Event.preHook, Event.runCommand cmd],
            Except.error (DputErr.dputError (hookErrMsg env cmd))))
    ∧ (hookOk env prof.pre_upload_command = true →
        hookOk env prof.post_upload_command = true →
        (upload_scope env prof args m paths).2 =
            (transfer_loop env prof args paths).2
          ∧ ∃ sent : List String,
              obs (upload_scope env prof args m paths).1 =
                Event.backendInit :: Event.preHook ::
                  (sent.map Event.sendFile ++ [Event.postHook, Event.shutdown]))
    ∧ (hookOk env prof.pre_upload_command = true →
        ∀ cmd, prof.post_upload_command = some cmd → cmd ≠ "" →
          env.cmdRet cmd ≠ 0 →
          Event.postHook ∈ (upload_scope env prof args m paths).1
            ∧ Event.shutdown ∉ (upload_scope env prof args m paths).1
            ∧ (upload_scope env prof args m paths).2 =
                Except.error (DputErr.dputError (hookErrMsg env cmd))) := by
  refine ⟨?_, ?_, ?_⟩
  · intro cmd hc hne hr
    unfold upload_scope with_uploader
    rw [uploader_setup_prefail env prof m hm hi hb cmd hc hne hr]
  · intro hpre hpost
    exact upload_scope_obs_ok env prof args m paths hm hi hb hpre hpost
  · intro hpre cmd hc hne hr
    have hsetup := uploader_setup_ok env prof m hm hi hb hpre
    have hfin := uploader_finally_postfail env prof cmd hc hne hr
    unfold upload_scope with_uploader
    rw [hsetup, hfin]
    refine ⟨by simp, ?_, rfl⟩
    simp only [List.mem_append, List.mem_cons]
    push_neg
    refine ⟨⟨⟨by simp, by simp, shutdown_not_mem_hookEvents _⟩,
      transfer_loop_no_shutdown env prof args paths⟩, by simp, by simp⟩

/-- Counterexample to C4 as stated: with a failing pre-hook after a
successful initialize, the claim says shutdown is still invoked; in the
code the `finally` block is never entered, so neither post-hook nor
shutdown appears in the trace. -/
theorem c4_counterexample :
    upload_scope envHookFail profPre {} "ftp" ["a.deb"] =
      ([Event.backendInit, Event.preHook, Event.runCommand "precmd"],
        Except.error (DputErr.dputError
          "Command `precmd' returned an error: boom [err=1]"))
    ∧ Event.shutdown ∉ (upload_scope envHookFail profPre {} "ftp" ["a.deb"]).1
    ∧ Event.postHook ∉ (upload_scope envHookFail profPre {} "ftp" ["a.deb"]).1 := by
  decide

/-- Witness for C4's amended theorem at the fixture input. -/
theorem c4_witness :
    (envFix.uploaders "ftp" = true
      ∧ envFix.interfaces (profFix.interface.getD "cli") = true
      ∧ envFix.backendInitOk = true)
    ∧ ((∀ cmd, profFix.pre_upload_command = some cmd → cmd ≠ "" →
          envFix.cmdRet cmd ≠ 0 →
          upload_scope envFix profFix {} "ftp" ["a.deb"] =
            ([Event.backendInit, Event.preHook, Event.runCommand cmd],
              Except.error (DputErr.dputError (hookErrMsg envFix cmd))))
      ∧ (hookOk envFix profFix.pre_upload_command = true →
          hookOk envFix profFix.post_upload_command = true →
          (upload_scope envFix profFix {} "ftp" ["a.deb"]).2 =
              (transfer_loop envFix profFix {} ["a.deb"]).2
            ∧ ∃ sent : List String,
                obs (upload_scope envFix profFix {} "ftp" ["a.deb"]).1 =
                  Event.backendInit :: Event.preHook ::
                    (sent.map Event.sendFile ++ [Event.postHook, Event.shutdown]))
      ∧ (hookOk envFix profFix.pre_upload_command = true →
          ∀ cmd, profFix.post_upload_command = some cmd → cmd ≠ "" →
            envFix.cmdRet cmd ≠ 0 →
            Event.postHook ∈ (upload_scope envFix profFix {} "ftp" ["a.deb"]).1
              ∧ Event.shutdown ∉ (upload_scope envFix profFix {} "ftp" ["a.deb"]).1
              ∧ (upload_scope envFix profFix {} "ftp" ["a.deb"]).2 =
                  Except.error (DputErr.dputError (hookErrMsg envFix cmd)))) :=
  ⟨⟨by decide, by decide, by decide⟩,
    c4_teardown envFix profFix {} "ftp" ["a.deb"] (by decide) (by decide)
      (by decide)⟩

theorem determine_logfile_ok (env : Env) (changes : Changes) (conf : Profile)
    (args : Args) (nm : String)
    (hsuf : endswith changes.changesFile ".changes" = true)
    (hname : conf.name = some nm)
    (hmark : env.markerExists (logfile_for changes nm) = false ∨ args.force = true) :
    determine_logfile env changes conf args =
      ([Event.access (logfile_for changes nm)],
        Except.ok (logfile_for changes nm)) := by
  simp only [logfile_for] at hmark
  unfold determine_logfile
  rcases hmark with h | h <;>
    simp [hsuf, hname, pyGet, seqE, logfile_for, h]

theorem info_lookups_ok (prof : Profile) (nm inc : String)
    (hname : prof.name = some nm) (hinc : prof.incoming = some inc) :
    info_lookups prof = ([], Except.ok ()) := by
  unfold info_lookups
  cases ht : pyTruthyOpt prof.fqdn <;> simp [hname, hinc, pyGet, ht]

theorem run_checkers_all_ok (env : Env) :
    ∀ cs : List String, (∀ c ∈ cs, env.checkerOk c = true) →
      run_checkers env cs = (cs.map Event.runChecker, Except.ok ()) := by
  intro cs
  induction cs with
  | nil => intro _; rfl
  | cons c cs ih =>
    intro h
    have hc : env.checkerOk c = true := h c (List.mem_cons_self c cs)
    have hcs := ih fun x hx => h x (List.mem_cons_of_mem c hx)
    simp [run_checkers, run_checker, seqE, hc, hcs]

theorem run_checkers_first_fail (env : Env) (c : String)
    (hc : env.checkerOk c = false) :
    ∀ pre : List String, ∀ post : List String,
      (∀ x ∈ pre, env.checkerOk x = true) →
      run_checkers env (pre ++ c :: post) =
        ((pre ++ [c]).map Event.runChecker,
          Except.error (DputErr.checkerReject c)) := by
  intro pre
  induction pre with
  | nil =>
    intro post _
    simp [run_checkers, run_checker, seqE, hc]
  | cons x pre ih =>
    intro post h
    have hx : env.checkerOk x = true := h x (List.mem_cons_self x pre)
    have hrec := ih post fun y hy => h y (List.mem_cons_of_mem x hy)
    simp [run_checkers, run_checker, seqE, hx, hrec]

theorem transfer_loop_sim (env : Env) (prof : Profile) (args : Args)
    (fq nm : String) (hsim : args.simulate = true)
    (hf : prof.fqdn = some fq) (hn : prof.name = some nm) :
    ∀ ps : List String,
      transfer_loop env prof args ps =
        (ps.map (fun p => Event.write (marker_line (basename p)
          (if fq = "" then nm else fq) nm)), Except.ok ()) := by
  intro ps
  induction ps with
  | nil => rfl
  | cons p ps ih =>
    simp [transfer_loop, transfer_one, seqE, hsim, hf, hn, pyGet, ih]

theorem invoke_dput_pipeline (env : Env) (changes : Changes) (args : Args)
    (nm inc : String) (cs : List String)
    (hsuf : endswith changes.changesFile ".changes" = true)
    (hname : (env.loadProfile args.host).name = some nm)
    (hinc : (env.loadProfile args.host).incoming = some inc)
    (hmark : env.markerExists (logfile_for changes nm) = false)
    (hcks : (env.loadProfile args.host).checkers = some cs)
    (hallok : ∀ c ∈ cs, env.checkerOk c = true) :
    invoke_dput env changes args =
      (Event.access (logfile_for changes nm) :: (optEvents args ++
        (cs.map Event.runChecker ++ (Event.openTrunc (logfile_for changes nm) ::
          (method_scope env (env.loadProfile args.host) args
            (changes.files ++ [changes.changesFile])).1))),
        (method_scope env (env.loadProfile args.host) args
          (changes.files ++ [changes.changesFile])).2) := by
  unfold invoke_dput
  simp only []
  rw [determine_logfile_ok env changes _ args nm hsuf hname (Or.inl hmark), hcks]
  unfold optEvents
  cases hd : delayedTruthy args <;> cases hp : args.passive <;>
    simp [seqE, hd, hp, run_checkers_all_ok env cs hallok,
      info_lookups_ok _ nm inc hname hinc]

theorem writtenLines_cons_write (l : String) (t : List Event) :
    writtenLines (Event.write l :: t) = l :: writtenLines t := by
  simp [writtenLines, List.filterMap_cons]

theorem writtenLines_cons_other (e : Event) (t : List Event)
    (h : (match e with | Event.write _ => false | _ => true) = true) :
    writtenLines (e :: t) = writtenLines t := by
  cases e <;> simp [writtenLines, List.filterMap_cons] <;> simp at h

theorem checkerCalls_cons_checker (c : String) (t : List Event) :
    checkerCalls (Event.runChecker c :: t) = c :: checkerCalls t := by
  simp [checkerCalls, List.filterMap_cons]

theorem checkerCalls_cons_other (e : Event) (t : List Event)
    (h : (match e with | Event.runChecker _ => false | _ => true) = true) :
    checkerCalls (e :: t) = checkerCalls t := by
  cases e <;> simp [checkerCalls, List.filterMap_cons] <;> simp at h

theorem writtenLines_map_write (ls : List String) :
    writtenLines (ls.map Event.write) = ls := by
  induction ls with
  | nil => rfl
  | cons l ls ih =>
    simp only [List.map_cons, writtenLines_cons_write, ih]

theorem writtenLines_map_runChecker (cs : List String) :
    writtenLines (cs.map Event.runChecker) = [] := by
  induction cs with
  | nil => rfl
  | cons c cs ih =>
    simp only [List.map_cons, writtenLines_cons_other (Event.runChecker c) _ rfl, ih]

theorem checkerCalls_map_runChecker (cs : List String) :
    checkerCalls (cs.map Event.runChecker) = cs := by
  induction cs with
  | nil => rfl
  | cons c cs ih =>
    simp only [List.map_cons, checkerCalls_cons_checker, ih]

theorem checkerCalls_map_write (ls : List String) :
    checkerCalls (ls.map Event.write) = [] := by
  induction ls with
  | nil => rfl
  | cons l ls ih =>
    simp only [List.map_cons, checkerCalls_cons_other (Event.write l) _ rfl, ih]

theorem obs_map_write (ls : List String) :
    obs (ls.map Event.write) = [] := by
  induction ls with
  | nil => rfl
  | cons l ls ih =>
    simp only [List.map_cons, obs_cons_false (Event.write l) _ rfl, ih]

theorem obs_map_runChecker (cs : List String) :
    obs (cs.map Event.runChecker) = [] := by
  induction cs with
  | nil => rfl
  | cons c cs ih =>
    simp only [List.map_cons, obs_cons_false (Event.runChecker c) _ rfl, ih]

theorem checkerCalls_hookEvents (cfg : Option String) :
    checkerCalls (hookEvents cfg) = [] := by
  cases cfg with
  | none => rfl
  | some cmd =>
    by_cases h : cmd = "" <;> simp [hookEvents, h, checkerCalls]

theorem obs_optEvents (args : Args) : obs (optEvents args) = [] := by
  unfold optEvents
  cases hd : delayedTruthy args <;> cases hp : args.passive <;>
    simp [hd, hp, obs, isBackendEvent]

theorem writtenLines_optEvents (args : Args) :
    writtenLines (optEvents args) = [] := by
  unfold optEvents
  cases hd : delayedTruthy args <;> cases hp : args.passive <;>
    simp [hd, hp, writtenLines]

theorem checkerCalls_optEvents (args : Args) :
    checkerCalls (optEvents args) = [] := by
  unfold optEvents
  cases hd : delayedTruthy args <;> cases hp : args.passive <;>
    simp [hd, hp, checkerCalls]

theorem write_not_mem_optEvents (args : Args) (l : String) :
    Event.write l ∉ optEvents args := by
  unfold optEvents
  cases hd : delayedTruthy args <;> cases hp : args.passive <;>
    simp [hd, hp]

theorem sendFile_not_mem_optEvents (args : Args) (p : String) :
    Event.sendFile p ∉ optEvents args := by
  unfold optEvents
  cases hd : delayedTruthy args <;> cases hp : args.passive <;>
    simp [hd, hp]

theorem sendFile_not_mem_hookEvents (cfg : Option String) (p : String) :
    Event.sendFile p ∉ hookEvents cfg := by
  cases cfg with
  | none => simp [hookEvents]
  | some cmd => by_cases h : cmd = "" <;> simp [hookEvents, h]

theorem openTrunc_not_mem_optEvents (args : Args) (p : String) :
    Event.openTrunc p ∉ optEvents args := by
  unfold optEvents
  cases hd : delayedTruthy args <;> cases hp : args.passive <;>
    simp [hd, hp]

theorem writtenLines_map_write_comp {α : Type} (f : α → String) (xs : List α) :
    writtenLines (xs.map (fun x => Event.write (f x))) = xs.map f := by
  induction xs with
  | nil => rfl
  | cons x xs ih => simp only [List.map_cons, writtenLines_cons_write, ih]

theorem checkerCalls_map_write_comp {α : Type} (f : α → String) (xs : List α) :
    checkerCalls (xs.map (fun x => Event.write (f x))) = [] := by
  induction xs with
  | nil => rfl
  | cons x xs ih =>
    simp only [List.map_cons, checkerCalls_cons_other (Event.write (f x)) _ rfl, ih]

/-- C2 (amended): for a destination profile whose method is not registered,
the upload does fail with `DputConfigurationError`, and no backend call and
no marker line happens — but the marker file is opened for writing (created
or truncated) before the failure, because `open(logfile, 'w')` precedes the
method resolution. -/
theorem c2_unregistered (env : Env) (changes : Changes) (args : Args)
    (nm inc m : String) (cs : List String)
    (hsuf : endswith changes.changesFile ".changes" = true)
    (hname : (env.loadProfile args.host).name = some nm)
    (hinc : (env.loadProfile args.host).incoming = some inc)
    (hmark : env.markerExists (logfile_for changes nm) = false)
    (hcks : (env.loadProfile args.host).checkers = some cs)
    (hallok : ∀ c ∈ cs, env.checkerOk c = true)
    (hmeth : (env.loadProfile args.host).method = some m)
    (hreg : env.uploaders m = false) :
    (invoke_dput env changes args).2 =
        Except.error (DputErr.configurationError
          ("Failed to resolve method " ++ m ++ " to an uploader class"))
      ∧ Event.openTrunc (logfile_for changes nm) ∈ (invoke_dput env changes args).1
      ∧ obs (invoke_dput env changes args).1 = []
      ∧ writtenLines (invoke_dput env changes args).1 = [] := by
  have hms : method_scope env (env.loadProfile args.host) args
      (changes.files ++ [changes.changesFile]) =
      ([], Except.error (DputErr.configurationError
        ("Failed to resolve method " ++ m ++ " to an uploader class"))) := by
    unfold method_scope with_uploader uploader_setup
    simp [hmeth, pyGet, hreg]
  rw [invoke_dput_pipeline env changes args nm inc cs hsuf hname hinc hmark
    hcks hallok, hms]
  simp only []
  refine ⟨by simp, by simp, ?_, ?_⟩
  · rw [obs_cons_false (Event.access _) _ rfl, obs_append, obs_optEvents,
      obs_append, obs_map_runChecker,
      obs_cons_false (Event.openTrunc _) _ rfl, obs_nil]
    rfl
  · rw [writtenLines_cons_other (Event.access _) _ rfl, writtenLines_append,
      writtenLines_optEvents, writtenLines_append, writtenLines_map_runChecker,
      writtenLines_cons_other (Event.openTrunc _) _ rfl]
    rfl

/-- Counterexample to C2 as stated: with an unregistered method the run does
fail with `DputConfigurationError`, but file I/O has already happened — the
marker file was opened for writing (created/truncated) before the failure. -/
theorem c2_counterexample :
    invoke_dput { envFix with uploaders := fun _ => false } chFix {} =
      ([Event.access "foo_1.0_amd64.myhost.upload",
        Event.openTrunc "foo_1.0_amd64.myhost.upload"],
        Except.error (DputErr.configurationError
          "Failed to resolve method ftp to an uploader class"))
    ∧ Event.openTrunc "foo_1.0_amd64.myhost.upload" ∈
        (invoke_dput { envFix with uploaders := fun _ => false } chFix {}).1 := by
  decide

/-- Witness for C2's amended theorem at a concrete unregistered-method run. -/
theorem c2_witness :
    (endswith chFix.changesFile ".changes" = true
      ∧ (({ envCks with uploaders := fun _ => false } : Env).loadProfile
          ({} : Args).host).method = some "ftp"
      ∧ ({ envCks with uploaders := fun _ => false } : Env).uploaders "ftp" = false)
    ∧ ((invoke_dput { envCks with uploaders := fun _ => false } chFix {}).2 =
          Except.error (DputErr.configurationError
            ("Failed to resolve method " ++ "ftp" ++ " to an uploader class"))
        ∧ Event.openTrunc (logfile_for chFix "myhost") ∈
            (invoke_dput { envCks with uploaders := fun _ => false } chFix {}).1
        ∧ obs (invoke_dput { envCks with uploaders := fun _ => false } chFix {}).1 = []
        ∧ writtenLines
            (invoke_dput { envCks with uploaders := fun _ => false } chFix {}).1 = []) :=
  ⟨⟨by decide, by decide, by decide⟩,
    c2_unregistered { envCks with uploaders := fun _ => false } chFix {}
      "myhost" "/in" "ftp" ["lintian"] (by decide) (by decide) (by decide)
      (by decide) (by decide) (by decide) (by decide) (by decide)⟩

/-- C3 (amended): whenever the run reaches the marker open, the marker file
is opened for writing (created or truncated) before the Transport is even
constructed — every event preceding the `openTrunc` event is
backend-silent — and this holds for dry-run (`simulate`) exactly as for a
real run (`args` is arbitrary). -/
theorem c3_marker_before_transport (env : Env) (changes : Changes)
    (args : Args) (nm inc : String) (cs : List String)
    (hsuf : endswith changes.changesFile ".changes" = true)
    (hname : (env.loadProfile args.host).name = some nm)
    (hinc : (env.loadProfile args.host).incoming = some inc)
    (hmark : env.markerExists (logfile_for changes nm) = false)
    (hcks : (env.loadProfile args.host).checkers = some cs)
    (hallok : ∀ c ∈ cs, env.checkerOk c = true) :
    ∃ t1 t2, (invoke_dput env changes args).1 =
        t1 ++ Event.openTrunc (logfile_for changes nm) :: t2
      ∧ obs t1 = [] := by
  rw [invoke_dput_pipeline env changes args nm inc cs hsuf hname hinc hmark
    hcks hallok]
  refine ⟨Event.access (logfile_for changes nm) ::
      (optEvents args ++ cs.map Event.runChecker),
    (method_scope env (env.loadProfile args.host) args
      (changes.files ++ [changes.changesFile])).1, ?_, ?_⟩
  · simp
  · rw [obs_cons_false (Event.access _) _ rfl, obs_append, obs_optEvents,
      obs_map_runChecker]
    rfl

/-- Counterexample to C3 as stated: in a dry-run (`simulate = true`) the
marker file is still opened for writing, and the `openTrunc` event occurs
before `backendInit` — before the Transport reaches Ready. -/
theorem c3_counterexample :
    invoke_dput envFix chFix { simulate := true } =
      ([Event.access "foo_1.0_amd64.myhost.upload",
        Event.openTrunc "foo_1.0_amd64.myhost.upload",
        Event.backendInit, Event.preHook,
        Event.write "Successfully uploaded a.deb to host.example for myhost.\n",
        Event.write
          "Successfully uploaded foo_1.0_amd64.changes to host.example for myhost.\n",
        Event.postHook, Event.shutdown], Except.ok ())
    ∧ Event.openTrunc "foo_1.0_amd64.myhost.upload" ∈
        (invoke_dput envFix chFix { simulate := true }).1 := by
  decide

/-- Witness for C3's amended theorem at a concrete dry-run. -/
theorem c3_witness :
    (endswith chFix.changesFile ".changes" = true
      ∧ (envCks.loadProfile ({ simulate := true } : Args).host).name = some "myhost"
      ∧ ({ simulate := true } : Args).simulate = true)
    ∧ ∃ t1 t2, (invoke_dput envCks chFix { simulate := true }).1 =
        t1 ++ Event.openTrunc (logfile_for chFix "myhost") :: t2
      ∧ obs t1 = [] :=
  ⟨⟨by decide, by decide, by decide⟩,
    c3_marker_before_transport envCks chFix { simulate := true } "myhost" "/in"
      ["lintian"] (by decide) (by decide) (by decide) (by decide) (by decide)
      (by decide)⟩

/-- C5: in dry-run (`simulate`) mode with N artifact files, zero
`upload_file` calls occur on the backend, yet exactly N+1 marker lines are
written (one per file plus one for the descriptor); the hooks and the
configured checkers still run, and the run completes successfully. -/
theorem c5_dry_run (env : Env) (changes : Changes) (args : Args)
    (nm fq inc m : String) (cs : List String)
    (hsim : args.simulate = true)
    (hsuf : endswith changes.changesFile ".changes" = true)
    (hname : (env.loadProfile args.host).name = some nm)
    (hf : (env.loadProfile args.host).fqdn = some fq)
    (hinc : (env.loadProfile args.host).incoming = some inc)
    (hmark : env.markerExists (logfile_for changes nm) = false)
    (hcks : (env.loadProfile args.host).checkers = some cs)
    (hallok : ∀ c ∈ cs, env.checkerOk c = true)
    (hmeth : (env.loadProfile args.host).method = some m)
    (hm : env.uploaders m = true)
    (hi : env.interfaces ((env.loadProfile args.host).interface.getD "cli") = true)
    (hb : env.backendInitOk = true)
    (hpre : hookOk env (env.loadProfile args.host).pre_upload_command = true)
    (hpost : hookOk env (env.loadProfile args.host).post_upload_command = true) :
    (∀ p, Event.sendFile p ∉ (invoke_dput env changes args).1)
    ∧ writtenLines (invoke_dput env changes args).1 =
        (changes.files ++ [changes.changesFile]).map (fun p =>
          marker_line (basename p) (if fq = "" then nm else fq) nm)
    ∧ (writtenLines (invoke_dput env changes args).1).length =
        changes.files.length + 1
    ∧ Event.preHook ∈ (invoke_dput env changes args).1
    ∧ Event.postHook ∈ (invoke_dput env changes args).1
    ∧ checkerCalls (invoke_dput env changes args).1 = cs
    ∧ (invoke_dput env changes args).2 = Except.ok () := by
  have hloop := transfer_loop_sim env (env.loadProfile args.host) args fq nm
    hsim hf hname (changes.files ++ [changes.changesFile])
  have hms : method_scope env (env.loadProfile args.host) args
      (changes.files ++ [changes.changesFile]) =
      ((Event.backendInit :: Event.preHook ::
          hookEvents (env.loadProfile args.host).pre_upload_command)
        ++ (changes.files ++ [changes.changesFile]).map (fun p =>
            Event.write (marker_line (basename p) (if fq = "" then nm else fq) nm))
        ++ (Event.postHook ::
            hookEvents (env.loadProfile args.host).post_upload_command ++
            [Event.shutdown]),
        Except.ok ()) := by
    unfold method_scope
    simp only [hmeth, pyGet]
    rw [with_uploader_ok env _ m _ hm hi hb hpre hpost, hloop]
  rw [invoke_dput_pipeline env changes args nm inc cs hsuf hname hinc hmark
    hcks hallok, hms]
  simp only []
  have hwl : writtenLines (Event.access (logfile_for changes nm) ::
      (optEvents args ++ (cs.map Event.runChecker ++
        (Event.openTrunc (logfile_for changes nm) ::
          ((Event.backendInit :: Event.preHook ::
              hookEvents (env.loadProfile args.host).pre_upload_command)
            ++ (changes.files ++ [changes.changesFile]).map (fun p =>
                Event.write (marker_line (basename p) (if fq = "" then nm else fq) nm))
            ++ (Event.postHook ::
                hookEvents (env.loadProfile args.host).post_upload_command ++
                [Event.shutdown])))))) =
      (changes.files ++ [changes.changesFile]).map (fun p =>
        marker_line (basename p) (if fq = "" then nm else fq) nm) := by
    rw [writtenLines_cons_other (Event.access _) _ rfl, writtenLines_append,
      writtenLines_optEvents, writtenLines_append, writtenLines_map_runChecker,
      writtenLines_cons_other (Event.openTrunc _) _ rfl,
      writtenLines_append, writtenLines_append,
      writtenLines_cons_other Event.backendInit _ rfl,
      writtenLines_cons_other Event.preHook _ rfl, writtenLines_hookEvents,
      writtenLines_map_write_comp, writtenLines_append,
      writtenLines_cons_other Event.postHook _ rfl, writtenLines_hookEvents]
    simp [writtenLines]
  refine ⟨?_, hwl, ?_, ?_, ?_, ?_, trivial⟩
  · intro p
    simp [List.mem_cons, List.mem_append, List.mem_map,
      sendFile_not_mem_optEvents args p, sendFile_not_mem_hookEvents]
  · rw [hwl]
    simp
  · simp
  · simp
  · rw [checkerCalls_cons_other (Event.access _) _ rfl, checkerCalls_append,
      checkerCalls_optEvents, checkerCalls_append, checkerCalls_map_runChecker,
      checkerCalls_cons_other (Event.openTrunc _) _ rfl,
      checkerCalls_append, checkerCalls_append,
      checkerCalls_cons_other Event.backendInit _ rfl,
      checkerCalls_cons_other Event.preHook _ rfl, checkerCalls_hookEvents,
      checkerCalls_map_write_comp, checkerCalls_append,
      checkerCalls_cons_other Event.postHook _ rfl, checkerCalls_hookEvents]
    simp [checkerCalls]

/-- Witness for C5 at a concrete dry-run: one file plus descriptor, one
checker, no backend sends, two marker lines. -/
theorem c5_witness :
    (({ simulate := true } : Args).simulate = true
      ∧ (envCks.loadProfile ({ simulate := true } : Args).host).fqdn =
          some "host.example"
      ∧ (envCks.loadProfile ({ simulate := true } : Args).host).checkers =
          some ["lintian"])
    ∧ ((∀ p, Event.sendFile p ∉ (invoke_dput envCks chFix { simulate := true }).1)
        ∧ writtenLines (invoke_dput envCks chFix { simulate := true }).1 =
            (chFix.files ++ [chFix.changesFile]).map (fun p =>
              marker_line (basename p)
                (if "host.example" = "" then "myhost" else "host.example") "myhost")
        ∧ (writtenLines (invoke_dput envCks chFix { simulate := true }).1).length =
            chFix.files.length + 1
        ∧ Event.preHook ∈ (invoke_dput envCks chFix { simulate := true }).1
        ∧ Event.postHook ∈ (invoke_dput envCks chFix { simulate := true }).1
        ∧ checkerCalls (invoke_dput envCks chFix { simulate := true }).1 = ["lintian"]
        ∧ (invoke_dput envCks chFix { simulate := true }).2 = Except.ok ()) :=
  ⟨⟨by decide, by decide, by decide⟩,
    c5_dry_run envCks chFix { simulate := true } "myhost" "host.example" "/in"
      "ftp" ["lintian"] (by decide) (by decide) (by decide) (by decide)
      (by decide) (by decide) (by decide) (by decide) (by decide) (by decide)
      (by decide) (by decide) (by decide) (by decide)⟩

/-- C6: checkers run strictly in listed order and fail fast: if every
checker before `c` accepts and `c` rejects, the run aborts with the
rejection, exactly the checkers up to and including `c` were invoked (the
later ones never run), no backend event occurs (the Transport is never
constructed) and the marker file is never opened. -/
theorem c6_validator_fail_fast (env : Env) (changes : Changes) (args : Args)
    (nm : String) (pre post : List String) (c : String)
    (hsuf : endswith changes.changesFile ".changes" = true)
    (hname : (env.loadProfile args.host).name = some nm)
    (hmark : env.markerExists (logfile_for changes nm) = false)
    (hcks : (env.loadProfile args.host).checkers = some (pre ++ c :: post))
    (hallok : ∀ x ∈ pre, env.checkerOk x = true)
    (hc : env.checkerOk c = false) :
    (invoke_dput env changes args).2 = Except.error (DputErr.checkerReject c)
    ∧ checkerCalls (invoke_dput env changes args).1 = pre ++ [c]
    ∧ obs (invoke_dput env changes args).1 = []
    ∧ (∀ p, Event.openTrunc p ∉ (invoke_dput env changes args).1) := by
  have hrc := run_checkers_first_fail env c hc pre post hallok
  have hrun : invoke_dput env changes args =
      (Event.access (logfile_for changes nm) :: (optEvents args ++
        (pre ++ [c]).map Event.runChecker),
        Except.error (DputErr.checkerReject c)) := by
    unfold invoke_dput
    simp only []
    rw [determine_logfile_ok env changes _ args nm hsuf hname (Or.inl hmark),
      hcks]
    unfold optEvents
    cases hd : delayedTruthy args <;> cases hp : args.passive <;>
      simp [seqE, hd, hp, hrc]
  rw [hrun]
  refine ⟨rfl, ?_, ?_, ?_⟩
  · rw [checkerCalls_cons_other (Event.access _) _ rfl, checkerCalls_append,
      checkerCalls_optEvents, checkerCalls_map_runChecker]
    rfl
  · rw [obs_cons_false (Event.access _) _ rfl, obs_append, obs_optEvents,
      obs_map_runChecker]
    rfl
  · intro p
    simp [List.mem_cons, List.mem_append, List.mem_map,
      openTrunc_not_mem_optEvents args p]

/-- Witness for C6: three configured checkers of which only the first
accepts; the third never runs, no backend event, no marker open. -/
theorem c6_witness :
    ((envCks3.loadProfile ({} : Args).host).checkers = some (["c1"] ++ "c2" :: ["c3"])
      ∧ envCks3.checkerOk "c2" = false
      ∧ (∀ x ∈ ["c1"], envCks3.checkerOk x = true))
    ∧ ((invoke_dput envCks3 chFix {}).2 =
          Except.error (DputErr.checkerReject "c2")
        ∧ checkerCalls (invoke_dput envCks3 chFix {}).1 = ["c1"] ++ ["c2"]
        ∧ obs (invoke_dput envCks3 chFix {}).1 = []
        ∧ (∀ p, Event.openTrunc p ∉ (invoke_dput envCks3 chFix {}).1)) :=
  ⟨⟨by decide, by decide, by decide⟩,
    c6_validator_fail_fast envCks3 chFix {} "myhost" ["c1"] ["c3"] "c2"
      (by decide) (by decide) (by decide) (by decide) (by decide) (by decide)⟩

/-- C10: evaluation of the code at the failing input of the fqdn bug.  For
a profile that carries no `fqdn` entry, the claim (and the spec, which
declares fqdn optional, matching the guarded access at source lines
181-183) says the upload succeeds and marker lines use the destination
name; instead the direct `profile['fqdn']` indexing at source line 230
raises `KeyError` at the first marker write: the file is transferred
(`sendFile` occurs), no marker line is ever written, and the run fails
with `KeyError('fqdn')` after teardown. -/
theorem c10_fqdn_keyerror :
    invoke_dput { envFix with loadProfile := fun _ => profNoFqdn } chFix {} =
      ([Event.access "foo_1.0_amd64.myhost.upload",
        Event.openTrunc "foo_1.0_amd64.myhost.upload",
        Event.backendInit, Event.preHook, Event.sendFile "a.deb",
        Event.postHook, Event.shutdown],
        Except.error (DputErr.keyError "fqdn"))
    ∧ writtenLines
        (invoke_dput { envFix with loadProfile := fun _ => profNoFqdn } chFix {}).1
        = [] := by
  decide
